import Mathlib

/-!
Verification of the mentat-vscode command router
(`src/mentat-vscode/src/utils/commands.ts`).

The router resolves a target file path from command arguments or the
active editor, and forwards fixed intents to the backend stream channel
(`server.sendStreamMessage`) or to the webview notifier
(`webviewProvider.sendMessage`).

The embedding models JavaScript runtime values with the inductive
`Value`, the ambient `vscode.window` host state with `VSCodeWindow`,
and each router operation as a pure function from its invocation
arguments and the ambient window state to the list of outbound
messages it sends (empty list when it sends nothing).
-/

namespace Mentat

/-- A JavaScript runtime value, as far as the router can observe one:
`undefined`, `null`, strings, numbers, booleans, and objects
(field-name/value association lists). -/
inductive Value where
  | undef : Value
  | null : Value
  | str : String → Value
  | num : Int → Value
  | bool : Bool → Value
  | obj : List (String × Value) → Value

/-- A value is nullish when it is `null` or `undefined`; these are the
values the `?.` and `??` operators short-circuit on. -/
def isNullish : Value → Bool
  | Value.undef => true
  | Value.null => true
  | _ => false

/-- Strict equality against the undefined value, as in `v === undefined`. -/
def isUndef : Value → Bool
  | Value.undef => true
  | _ => false

/-- Whether a value is a string. -/
def isStringValue : Value → Bool
  | Value.str _ => true
  | _ => false

/-- Models the optional-chained property read `v?.k`: nullish receivers
short-circuit to `undefined`; property access on an object looks the
field up (missing field gives `undefined`); property access on any
other non-nullish primitive gives `undefined` as well, since such
values own no `path` property. -/
def optChainProp (v : Value) (k : String) : Value :=
  match v with
  | Value.obj fields =>
      match fields.lookup k with
      | some w => w
      | none => Value.undef
  | _ => Value.undef

/-- Models the nullish-coalescing operator `a ?? b`. -/
def nullishCoalesce (a b : Value) : Value :=
  if isNullish a then b else a

/-- Models `args.at(0)` on the invocation-argument array: the first
element, or `undefined` when the array is empty. -/
def argsAt0 (args : List Value) : Value :=
  match args with
  | [] => Value.undef
  | a :: _ => a

/-- A `vscode.TextDocument`, of which the router reads only `fileName`. -/
structure TextDocument where
  fileName : String

/-- A `vscode.TextEditor`; the router reads its document through the
optional chain `?.document`, so the document is modelled as optional. -/
structure TextEditor where
  document : Option TextDocument

/-- The ambient `vscode.window` host state. The router reads only
`activeTextEditor`; `otherState` stands for the remainder of the host
window state, which the router never reads. -/
structure VSCodeWindow where
  activeTextEditor : Option TextEditor
  otherState : Nat

/-- Models `vscode.window.activeTextEditor?.document?.fileName`. -/
def activeFileName (w : VSCodeWindow) : Value :=
  match w.activeTextEditor with
  | none => Value.undef
  | some e =>
      match e.document with
      | none => Value.undef
      | some d => Value.str d.fileName

/-- Embeds `getFilepath(args)`, whose body is
`args.at(0)?.path ?? vscode.window.activeTextEditor?.document?.fileName`. -/
def getFilepath (args : List Value) (w : VSCodeWindow) : Value :=
  nullishCoalesce (optChainProp (argsAt0 args) "path") (activeFileName w)

/-- The webview provider handed to `eraseChatHistory`; never inspected
by the router, identified here by an id so that distinct notifiers are
distinguishable. -/
structure WebviewProvider where
  id : Nat

/-- The channel an outbound message is sent on: the backend stream
channel (`server.sendStreamMessage`) or a webview notifier
(`webviewProvider.sendMessage`). -/
inductive Channel where
  | server : Channel
  | webview : WebviewProvider → Channel

/-- One outbound message: the channel it goes through, its target
(a path value or `null`), and its intent string. -/
structure Message where
  channel : Channel
  target : Value
  intent : String

/-- Embeds `includeResource(...args)`: resolve the path; if it is
strictly equal to `undefined`, return without sending; otherwise send
the resolved path with intent "include" on the backend stream channel. -/
def includeResource (args : List Value) (w : VSCodeWindow) : List Message :=
  let filePath := getFilepath args w
  if isUndef filePath then []
  else [Message.mk Channel.server filePath "include"]

/-- Embeds `excludeResource(...args)`: same body as `includeResource`
with intent "exclude". -/
def excludeResource (args : List Value) (w : VSCodeWindow) : List Message :=
  let filePath := getFilepath args w
  if isUndef filePath then []
  else [Message.mk Channel.server filePath "exclude"]

/-- Embeds `clearChat(...args)`: unconditionally send `null` with
intent "clear_conversation" on the backend stream channel; the
arguments are never read. -/
def clearChat (args : List Value) : List Message :=
  [Message.mk Channel.server Value.null "clear_conversation"]

/-- Embeds `eraseChatHistory(webviewProvider)`: a factory returning a
callback that, for any arguments, sends `null` with intent
"vscode:eraseChatHistory" through the given webview provider's
`sendMessage`. -/
def eraseChatHistory (wp : WebviewProvider) : List Value → List Message :=
  fun args => [Message.mk (Channel.webview wp) Value.null "vscode:eraseChatHistory"]

/-- Relabelling of a message to intent "exclude", keeping its channel
and target. -/
def relabelExclude (m : Message) : Message :=
  Message.mk m.channel m.target "exclude"

/-- Written from the spec sentence for the exclude operation:
"`exclude` behaves identically to `include` except for the intent
label" — the include behaviour with every sent message relabelled to
intent "exclude". Compared with `excludeResource` (from the source)
in the refinement theorem for the exclude claim. -/
def excludeSpec (args : List Value) (w : VSCodeWindow) : List Message :=
  (includeResource args w).map relabelExclude

/-- The fallback value the router derives from the ambient editor
state, spelled out by cases: the active editor's backing file name
when an active editor with a document exists, absent otherwise. -/
def editorFallback (w : VSCodeWindow) : Value :=
  match w.activeTextEditor with
  | some e =>
      match e.document with
      | some d => Value.str d.fileName
      | none => Value.undef
  | none => Value.undef

/-- The by-cases fallback agrees with the optional chain
`activeTextEditor?.document?.fileName` from the source. -/
theorem activeFileName_eq_editorFallback (w : VSCodeWindow) :
    activeFileName w = editorFallback w := by
  obtain ⟨editor, other⟩ := w
  cases editor with
  | none => rfl
  | some e =>
      obtain ⟨doc⟩ := e
      cases doc <;> rfl

/-- The editor fallback is never the `null` value: it is either a
string or `undefined`. -/
theorem editorFallback_ne_null (w : VSCodeWindow) :
    editorFallback w ≠ Value.null := by
  obtain ⟨editor, other⟩ := w
  cases editor with
  | none => intro hc; cases hc
  | some e =>
      obtain ⟨doc⟩ := e
      cases doc <;> intro hc <;> cases hc

/-- The editor fallback is a string or the absent value `undefined`. -/
theorem editorFallback_string_or_undef (w : VSCodeWindow) :
    isStringValue (editorFallback w) = true ∨ editorFallback w = Value.undef := by
  obtain ⟨editor, other⟩ := w
  cases editor with
  | none => exact Or.inr rfl
  | some e =>
      obtain ⟨doc⟩ := e
      cases doc with
      | none => exact Or.inr rfl
      | some d => exact Or.inl rfl

/-- C1 (counterexample): the claim as stated fails when the first
argument carries a "path" field whose value is `null`: the first
argument of the concrete invocation is an object carrying the field
"path" with value `null`, an active editor exists, and `getFilepath`
does not return the field's value `null` (it returns the editor's
file name instead). -/
theorem c1_null_path_counterexample :
    List.lookup "path" [( "path", Value.null )] = some Value.null ∧
    getFilepath [Value.obj [( "path", Value.null )]]
        (VSCodeWindow.mk (some (TextEditor.mk (some (TextDocument.mk "main.py")))) 0)
      ≠ Value.null := by
  constructor
  · rfl
  · intro hc
    cases hc

/-- C1 (amended): for every invocation argument sequence whose first
argument carries a "path" field with a non-nullish value (neither
`null` nor `undefined`), `getFilepath` returns exactly that value,
regardless of whether an active editor exists or what its file name
is. -/
theorem c1_path_field_returned (args : List Value) (w : VSCodeWindow)
    (h : isNullish (optChainProp (argsAt0 args) "path") = false) :
    getFilepath args w = optChainProp (argsAt0 args) "path" := by
  simp [getFilepath, nullishCoalesce, h]

/-- Instance of the amended C1 theorem at a concrete invocation. -/
theorem c1_path_field_returned_witness :
    getFilepath [Value.obj [( "path", Value.str "/a/b.py" )]]
        (VSCodeWindow.mk (some (TextEditor.mk (some (TextDocument.mk "other.py")))) 0)
      = optChainProp
          (argsAt0 [Value.obj [( "path", Value.str "/a/b.py" )]]) "path" :=
  c1_path_field_returned [Value.obj [( "path", Value.str "/a/b.py" )]]
    (VSCodeWindow.mk (some (TextEditor.mk (some (TextDocument.mk "other.py")))) 0) rfl

/-- C2: `includeResource` sends exactly one message, with intent
"include" and the resolved path, on the backend stream channel if and
only if path resolution yields a value; when resolution yields no
value (strictly `undefined`) it sends nothing and has no other
effect. -/
theorem c2_include_sends_iff_resolved (args : List Value) (w : VSCodeWindow) :
    (getFilepath args w = Value.undef → includeResource args w = []) ∧
    (getFilepath args w ≠ Value.undef →
      includeResource args w
        = [Message.mk Channel.server (getFilepath args w) "include"]) := by
  constructor
  · intro h
    simp [includeResource, h, isUndef]
  · intro h
    have hu : isUndef (getFilepath args w) = false := by
      cases hv : getFilepath args w
      · exact absurd hv h
      all_goals rfl
    simp [includeResource, hu]

/-- Instance of the C2 theorem: nothing is sent when nothing resolves
(empty arguments, no active editor), and one include message is sent
when the first argument carries a path. -/
theorem c2_include_sends_iff_resolved_witness :
    includeResource [] (VSCodeWindow.mk none 0) = [] ∧
    includeResource [Value.obj [( "path", Value.str "/a/b.py" )]] (VSCodeWindow.mk none 0)
      = [Message.mk Channel.server (Value.str "/a/b.py") "include"] := by
  constructor
  · exact (c2_include_sends_iff_resolved [] (VSCodeWindow.mk none 0)).1 rfl
  · exact (c2_include_sends_iff_resolved
      [Value.obj [( "path", Value.str "/a/b.py" )]]
      (VSCodeWindow.mk none 0)).2 (fun hc => nomatch hc)

/-- C3: `clearChat` sends exactly one message, with intent
"clear_conversation" and a `null` target, on the backend stream
channel; the invocation arguments have no effect on the message. -/
theorem c3_clearChat_constant (args : List Value) :
    clearChat args = [Message.mk Channel.server Value.null "clear_conversation"] := rfl

/-- C4: the callback returned by `eraseChatHistory` for a notifier
sends, for any argument sequence, exactly one message with the
erase-chat-history intent token and a `null` target through that
notifier's webview channel, and sends nothing on the backend stream
channel. -/
theorem c4_eraseChatHistory_via_notifier (wp : WebviewProvider) (args : List Value) :
    eraseChatHistory wp args
      = [Message.mk (Channel.webview wp) Value.null "vscode:eraseChatHistory"] ∧
    ∀ m ∈ eraseChatHistory wp args, m.channel ≠ Channel.server := by
  refine ⟨rfl, ?_⟩
  intro m hm
  have hm2 : m = Message.mk (Channel.webview wp) Value.null "vscode:eraseChatHistory" := by
    simpa [eraseChatHistory] using hm
  rw [hm2]
  intro hc
  cases hc

/-- Instance of the C4 theorem at a concrete notifier and invocation. -/
theorem c4_eraseChatHistory_via_notifier_witness :
    (Message.mk (Channel.webview (WebviewProvider.mk 0)) Value.null
        "vscode:eraseChatHistory").channel
      ≠ Channel.server :=
  (c4_eraseChatHistory_via_notifier (WebviewProvider.mk 0) [Value.str "ignored"]).2
    (Message.mk (Channel.webview (WebviewProvider.mk 0)) Value.null
      "vscode:eraseChatHistory")
    (by simp [eraseChatHistory])

/-- C5: for every invocation argument sequence with no usable first
argument (empty sequence, or a first argument whose "path" read is
nullish), `getFilepath` returns the active editor's backing file name
when an active editor with a document exists, and the absent value
otherwise. -/
theorem c5_fallback_when_no_usable_arg (args : List Value) (w : VSCodeWindow)
    (h : isNullish (optChainProp (argsAt0 args) "path") = true) :
    getFilepath args w = editorFallback w := by
  rw [← activeFileName_eq_editorFallback]
  simp [getFilepath, nullishCoalesce, h]

/-- Instance of the C5 theorem: with empty arguments, the active
editor's file name is returned when an editor exists, and the absent
value when none does. -/
theorem c5_fallback_when_no_usable_arg_witness :
    getFilepath []
        (VSCodeWindow.mk (some (TextEditor.mk (some (TextDocument.mk "w.py")))) 3)
      = Value.str "w.py" ∧
    getFilepath [] (VSCodeWindow.mk none 3) = Value.undef := by
  constructor
  · exact c5_fallback_when_no_usable_arg []
      (VSCodeWindow.mk (some (TextEditor.mk (some (TextDocument.mk "w.py")))) 3) rfl
  · exact c5_fallback_when_no_usable_arg [] (VSCodeWindow.mk none 3) rfl

/-- C6: for every invocation argument sequence and every ambient
active-editor state, `excludeResource` behaves exactly as
`includeResource` with every sent message relabelled to intent
"exclude": same condition for sending, same resolved target, same
channel. -/
theorem c6_exclude_refines_include (args : List Value) (w : VSCodeWindow) :
    excludeResource args w = excludeSpec args w := by
  unfold excludeResource excludeSpec includeResource relabelExclude
  cases hu : isUndef (getFilepath args w) <;> simp [hu]

/-- C7 (counterexample): the claim that `getFilepath` always returns a
string or an absent value fails when the first argument carries a
"path" field holding a non-string value: at a concrete invocation
whose path field holds the number 42, `getFilepath` returns that
number, which is neither a string nor the absent value. -/
theorem c7_nonstring_result_counterexample :
    getFilepath [Value.obj [( "path", Value.num 42 )]] (VSCodeWindow.mk none 0)
      = Value.num 42 ∧
    isStringValue (Value.num 42) = false ∧
    Value.num 42 ≠ Value.undef := by
  refine ⟨rfl, rfl, ?_⟩
  intro hc
  cases hc

/-- C7 (amended): `getFilepath` is total and effect-free: for every
invocation argument sequence and ambient editor state it returns a
value without raising any error, sending no message and mutating no
state; when the first argument's "path" read is non-nullish the
result is exactly that value (a string in intended use, any value in
general), and otherwise the result is exactly the editor fallback —
the active editor's file name string or the absent value. -/
theorem c7_total_result_characterization (args : List Value) (w : VSCodeWindow) :
    (isNullish (optChainProp (argsAt0 args) "path") = false →
      getFilepath args w = optChainProp (argsAt0 args) "path") ∧
    (isNullish (optChainProp (argsAt0 args) "path") = true →
      getFilepath args w = editorFallback w ∧
      (isStringValue (getFilepath args w) = true ∨ getFilepath args w = Value.undef)) := by
  constructor
  · intro h
    simp [getFilepath, nullishCoalesce, h]
  · intro h
    have hg : getFilepath args w = editorFallback w := by
      rw [← activeFileName_eq_editorFallback]
      simp [getFilepath, nullishCoalesce, h]
    refine ⟨hg, ?_⟩
    rw [hg]
    exact editorFallback_string_or_undef w

/-- Instance of the amended C7 theorem, exercising both hypotheses: a
non-nullish (number-valued) path read is returned exactly, and a bare
boolean first argument leaves a result that is a string or absent. -/
theorem c7_total_result_characterization_witness :
    getFilepath [Value.obj [( "path", Value.num 7 )]] (VSCodeWindow.mk none 4)
      = optChainProp (argsAt0 [Value.obj [( "path", Value.num 7 )]]) "path" ∧
    (isStringValue (getFilepath [Value.bool true] (VSCodeWindow.mk none 5)) = true ∨
      getFilepath [Value.bool true] (VSCodeWindow.mk none 5) = Value.undef) := by
  constructor
  · exact (c7_total_result_characterization
      [Value.obj [( "path", Value.num 7 )]] (VSCodeWindow.mk none 4)).1 rfl
  · exact ((c7_total_result_characterization
      [Value.bool true] (VSCodeWindow.mk none 5)).2 rfl).2

/-- C8: when the first argument carries a "path" field whose value is
`null`, `getFilepath` does not return that `null`: it falls back to
the active editor's file name if one exists and to the absent value
otherwise, exactly as when the field is missing. -/
theorem c8_null_path_falls_back (args : List Value) (w : VSCodeWindow)
    (h : optChainProp (argsAt0 args) "path" = Value.null) :
    getFilepath args w = editorFallback w ∧ getFilepath args w ≠ Value.null := by
  have hg : getFilepath args w = editorFallback w := by
    rw [← activeFileName_eq_editorFallback]
    simp [getFilepath, nullishCoalesce, h, isNullish]
  refine ⟨hg, ?_⟩
  rw [hg]
  exact editorFallback_ne_null w

/-- Instance of the C8 theorem at a concrete invocation carrying a
`null` path, with an active editor present. -/
theorem c8_null_path_falls_back_witness :
    getFilepath [Value.obj [( "path", Value.null )]]
        (VSCodeWindow.mk (some (TextEditor.mk (some (TextDocument.mk "fallback.py")))) 1)
      ≠ Value.null :=
  (c8_null_path_falls_back [Value.obj [( "path", Value.null )]]
    (VSCodeWindow.mk (some (TextEditor.mk (some (TextDocument.mk "fallback.py")))) 1)
    rfl).2

/-- C9: when the first argument carries a "path" field whose value is
the empty string, `getFilepath` returns the empty string without
consulting the active editor (the result is the same for every
ambient editor state), and `includeResource` then sends intent
"include" with the empty-string path on the backend stream channel. -/
theorem c9_empty_string_path_sent (args : List Value) (w : VSCodeWindow)
    (h : optChainProp (argsAt0 args) "path" = Value.str "") :
    getFilepath args w = Value.str "" ∧
    includeResource args w = [Message.mk Channel.server (Value.str "") "include"] := by
  have hg : getFilepath args w = Value.str "" := by
    simp [getFilepath, nullishCoalesce, h, isNullish]
  refine ⟨hg, ?_⟩
  simp [includeResource, hg, isUndef]

/-- Instance of the C9 theorem at a concrete invocation carrying an
empty-string path. -/
theorem c9_empty_string_path_sent_witness :
    includeResource [Value.obj [( "path", Value.str "" )]] (VSCodeWindow.mk none 0)
      = [Message.mk Channel.server (Value.str "") "include"] :=
  (c9_empty_string_path_sent [Value.obj [( "path", Value.str "" )]]
    (VSCodeWindow.mk none 0) rfl).2

/-- C10: every router operation is deterministic: two runs of
`includeResource`, `excludeResource`, `clearChat`, or an
`eraseChatHistory` callback with the same invocation arguments and the
same ambient active-editor state (the rest of the host window state
may differ) produce the same outbound messages. -/
theorem c10_deterministic (args : List Value) (wp : WebviewProvider)
    (w1 w2 : VSCodeWindow)
    (h : w1.activeTextEditor = w2.activeTextEditor) :
    includeResource args w1 = includeResource args w2 ∧
    excludeResource args w1 = excludeResource args w2 ∧
    clearChat args = clearChat args ∧
    eraseChatHistory wp args = eraseChatHistory wp args := by
  have hA : activeFileName w1 = activeFileName w2 := by
    unfold activeFileName
    rw [h]
  have hf : getFilepath args w1 = getFilepath args w2 := by
    unfold getFilepath
    rw [hA]
  exact ⟨by simp [includeResource, hf], by simp [excludeResource, hf], rfl, rfl⟩

/-- Instance of the C10 theorem: two window states differing only in
host state the router never reads yield the same include message. -/
theorem c10_deterministic_witness :
    includeResource [] (VSCodeWindow.mk none 0)
      = includeResource [] (VSCodeWindow.mk none 7) :=
  (c10_deterministic [] (WebviewProvider.mk 0)
    (VSCodeWindow.mk none 0) (VSCodeWindow.mk none 7) rfl).1

end Mentat
